import Mathlib

/-!
Ledge detection and input handling of the climbing character.

A shallow embedding of `Source/Climbing/ClimbingCharacter.cpp`.

* Scalars (the engine's floating-point numbers) are a type parameter `α`; the
  code only adds them, multiplies them and writes whole-valued literals, so the
  definitions ask for `Add`, `Mul` and `NatCast` and nothing else.  Every law
  a theorem needs (commutativity of addition, say) is asked for where it is used.
* The engine is a record of the services the character calls: the actor
  transform getters, the two trace queries and the rotation helpers.  A trace
  service answers a query with the hit boolean and the hit result it writes into
  the by-reference `Hit` argument.
* Each member function returns the character after the call together with the
  list of calls it made to the engine, in program order.
* The header declaring the members is not among the sources; the members are
  typed from their uses in the `.cpp` file.
-/

namespace Climbing

/-! ## Engine value types -/

/-- Engine type `FVector`: three scalar components. -/
structure FVector (α : Type) where
  X : α
  Y : α
  Z : α
deriving DecidableEq, Repr

/-- Engine type `FVector2D`, the payload of the Move and Look input actions. -/
structure FVector2D (α : Type) where
  X : α
  Y : α
deriving DecidableEq, Repr

/-- Engine type `FRotator`, constructed as `FRotator(Pitch, Yaw, Roll)`. -/
structure FRotator (α : Type) where
  Pitch : α
  Yaw : α
  Roll : α
deriving DecidableEq, Repr

/-- Engine enumeration `EAxis`. -/
inductive EAxis where
  | None
  | X
  | Y
  | Z
deriving DecidableEq, Repr

variable {α : Type}

/-- A whole-valued scalar literal of the source, such as `50.f`. -/
def lit [NatCast α] (n : ℕ) : α := (n : α)

/-- Componentwise sum, `FVector::operator+`. -/
def FVector.add [Add α] (a b : FVector α) : FVector α :=
  ⟨a.X + b.X, a.Y + b.Y, a.Z + b.Z⟩

/-- Scaling by a scalar on the right, `FVector::operator*(Scale)`. -/
def FVector.scale [Mul α] (v : FVector α) (s : α) : FVector α :=
  ⟨v.X * s, v.Y * s, v.Z * s⟩

instance [Add α] : Add (FVector α) := ⟨FVector.add⟩

instance [Mul α] : HMul (FVector α) α (FVector α) := ⟨FVector.scale⟩

/-- Engine type `FHitResult`, restricted to what the character reads from it.
`ActorLabel` is what `GetActor()->GetActorNameOrLabel()` yields; the engine
attaches the struck actor to the result of every trace that reports a hit. -/
structure FHitResult (α : Type) where
  ImpactPoint : FVector α
  ImpactNormal : FVector α
  ActorLabel : String
deriving DecidableEq, Repr

/-- Engine type `FCollisionShape` as built by `FCollisionShape::MakeCapsule`. -/
structure FCollisionShape (α : Type) where
  CapsuleRadius : α
  CapsuleHalfHeight : α
deriving DecidableEq, Repr

/-- Engine function `FCollisionShape::MakeCapsule(Radius, HalfHeight)`. -/
def FCollisionShape.MakeCapsule (Radius HalfHeight : α) : FCollisionShape α :=
  ⟨Radius, HalfHeight⟩

/-- Arguments of `UKismetSystemLibrary::CapsuleTraceSingleByProfile`
(the debug-draw arguments, which are presentational, are left out). -/
structure CapsuleTraceQuery (α : Type) where
  Start : FVector α
  End : FVector α
  Radius : α
  HalfHeight : α
  ProfileName : String
  bTraceComplex : Bool
  ActorsToIgnore : List String
  bIgnoreSelf : Bool
deriving DecidableEq, Repr

/-- Arguments of `UKismetSystemLibrary::LineTraceSingleByProfile`
(the debug-draw arguments are left out). -/
structure LineTraceQuery (α : Type) where
  Start : FVector α
  End : FVector α
  ProfileName : String
  bTraceComplex : Bool
  ActorsToIgnore : List String
  bIgnoreSelf : Bool
deriving DecidableEq, Repr

/-- The three on-screen debug texts that `Tick` formats. -/
inductive DebugText (α : Type) where
  | CapsuleHit (ActorLabel : String)
  | LineHit (ActorLabel : String)
  | LedgeHeight (LedgeHeightLocation : α)
deriving DecidableEq, Repr

/-- A call from the character into the engine. -/
inductive HostCall (α : Type) where
  | SuperTick (DeltaSeconds : α)
  | CapsuleTraceSingleByProfile (Query : CapsuleTraceQuery α)
  | LineTraceSingleByProfile (Query : LineTraceQuery α)
  | AddOnScreenDebugMessage (Text : DebugText α)
  | AddMovementInput (WorldDirection : FVector α) (ScaleValue : α)
  | AddControllerYawInput (Val : α)
  | AddControllerPitchInput (Val : α)
deriving DecidableEq, Repr

/-- Whether a call is one of the two geometric trace queries. -/
def HostCall.isTraceQuery : HostCall α → Bool
  | .CapsuleTraceSingleByProfile _ => true
  | .LineTraceSingleByProfile _ => true
  | _ => false

/-- Whether a call asks for movement or for controller yaw or pitch input. -/
def HostCall.isInputRequest : HostCall α → Bool
  | .AddMovementInput _ _ => true
  | .AddControllerYawInput _ => true
  | .AddControllerPitchInput _ => true
  | _ => false

/-- The engine as the character sees it during one call. -/
structure Engine (α : Type) where
  /-- Result of `GetActorLocation()`. -/
  GetActorLocation : FVector α
  /-- Result of `GetActorForwardVector()`. -/
  GetActorForwardVector : FVector α
  /-- Result of `LedgeFinder->GetComponentLocation()`. -/
  LedgeFinderLocation : FVector α
  /-- Service `UKismetSystemLibrary::CapsuleTraceSingleByProfile`. -/
  CapsuleTraceSingleByProfile : CapsuleTraceQuery α → Bool × FHitResult α
  /-- Service `UKismetSystemLibrary::LineTraceSingleByProfile`. -/
  LineTraceSingleByProfile : LineTraceQuery α → Bool × FHitResult α
  /-- Service `UKismetMathLibrary::MakeRotFromX`. -/
  MakeRotFromX : FVector α → FRotator α
  /-- Service `FRotationMatrix(Rotation).GetUnitAxis(Axis)`. -/
  RotationMatrixUnitAxis : FRotator α → EAxis → FVector α

/-! ## The character -/

/-- The controller as far as the character reads it: `GetControlRotation()`. -/
structure AController (α : Type) where
  ControlRotation : FRotator α
deriving DecidableEq, Repr

/-- The members of `AClimbingCharacter` that the functions below read or write.
`Controller` is `none` for the null pointer.  `LedgeHeightLocation` has the
scalar type of the vector components, so that assigning `CheckLedgeImpact.Z`
to it is a plain copy. -/
structure AClimbingCharacter (α : Type) where
  Controller : Option (AController α)
  bDetectLedge : Bool
  LedgeHeightLocation : α
  CheckLedgeImpact : FVector α
deriving DecidableEq, Repr

/-- The constructor `AClimbingCharacter::AClimbingCharacter() : bDetectLedge(false)`.
No controller is attached yet; the constructor does not assign the other two
ledge members, so their first values are arguments. -/
def AClimbingCharacter.construct (LedgeHeightLocation : α) (CheckLedgeImpact : FVector α) :
    AClimbingCharacter α :=
  { Controller := none
    bDetectLedge := false
    LedgeHeightLocation := LedgeHeightLocation
    CheckLedgeImpact := CheckLedgeImpact }

/-- What a trace member function produces: the returned boolean, the hit result
written through the reference argument, the character afterwards and the
engine calls made. -/
structure TraceOutcome (α : Type) where
  ValidHit : Bool
  Hit : FHitResult α
  self : AClimbingCharacter α
  calls : List (HostCall α)

/-- What a `void` member function produces: the character afterwards and the
engine calls made. -/
structure Outcome (α : Type) where
  self : AClimbingCharacter α
  calls : List (HostCall α)

/-- The collision profile name `FName(TEXT("Ledge"))`. -/
def LedgeProfile : String := "Ledge"

/-- Member function `AClimbingCharacter::TraceForLedge(FHitResult& Hit)`. -/
def AClimbingCharacter.TraceForLedge [Add α] [Mul α] [NatCast α]
    (self : AClimbingCharacter α) (engine : Engine α) : TraceOutcome α :=
  -- Get the actors location and move it 50.f up
  let TraceStart : FVector α := engine.GetActorLocation + FVector.mk (lit 0) (lit 0) (lit 50)
  -- Scale the actors forward vector and add the actor's location and move it 50.f up
  let TraceEnd : FVector α :=
    engine.GetActorForwardVector * (lit 33 : α) + engine.GetActorLocation
      + FVector.mk (lit 0) (lit 0) (lit 50)
  -- Make a capsule to trace with
  let Capsule : FCollisionShape α := FCollisionShape.MakeCapsule (lit 22) (lit 100)
  -- Capsule trace
  let ActorsToIgnore : List String := []
  let Query : CapsuleTraceQuery α :=
    { Start := TraceStart
      End := TraceEnd
      Radius := Capsule.CapsuleRadius
      HalfHeight := Capsule.CapsuleHalfHeight
      ProfileName := LedgeProfile
      bTraceComplex := false
      ActorsToIgnore := ActorsToIgnore
      bIgnoreSelf := true }
  let Result := engine.CapsuleTraceSingleByProfile Query
  let ValidHit := Result.1
  let Hit := Result.2
  let _CapsuleImpactPoint := Hit.ImpactPoint
  let CapsuleImpactNormal := Hit.ImpactNormal
  let _ImpactRot := (engine.MakeRotFromX CapsuleImpactNormal).Yaw
  { ValidHit := ValidHit
    Hit := Hit
    self := self
    calls := [HostCall.CapsuleTraceSingleByProfile Query] }

/-- Member function `AClimbingCharacter::VerticalTrace(FHitResult& Hit)`. -/
def AClimbingCharacter.VerticalTrace [Add α] [NatCast α]
    (self : AClimbingCharacter α) (engine : Engine α) : TraceOutcome α :=
  -- Get the arrow component location and move it up 80.f
  let TraceStart : FVector α := engine.LedgeFinderLocation + FVector.mk (lit 0) (lit 0) (lit 80)
  -- Get the arrow component location
  let TraceEnd : FVector α := engine.LedgeFinderLocation
  -- Line trace for ledge collision
  let Query : LineTraceQuery α :=
    { Start := TraceStart
      End := TraceEnd
      ProfileName := LedgeProfile
      bTraceComplex := false
      ActorsToIgnore := []
      bIgnoreSelf := true }
  let Result := engine.LineTraceSingleByProfile Query
  let ValidHit := Result.1
  let Hit := Result.2
  { ValidHit := ValidHit
    Hit := Hit
    self := { self with CheckLedgeImpact := Hit.ImpactPoint }
    calls := [HostCall.LineTraceSingleByProfile Query] }

/-- Member function `AClimbingCharacter::Tick(float DeltaSeconds)`. -/
def AClimbingCharacter.Tick [Add α] [Mul α] [NatCast α]
    (self : AClimbingCharacter α) (engine : Engine α) (DeltaSeconds : α) : Outcome α :=
  let calls0 : List (HostCall α) := [HostCall.SuperTick DeltaSeconds]
  let Capsule := self.TraceForLedge engine
  if Capsule.ValidHit then
    let calls1 := calls0 ++ Capsule.calls
      ++ [HostCall.AddOnScreenDebugMessage (DebugText.CapsuleHit Capsule.Hit.ActorLabel)]
    let Line := Capsule.self.VerticalTrace engine
    if Line.ValidHit then
      let self1 := { Line.self with bDetectLedge := true }
      let self2 := { self1 with LedgeHeightLocation := self1.CheckLedgeImpact.Z }
      { self := self2
        calls := calls1 ++ Line.calls
          ++ [HostCall.AddOnScreenDebugMessage (DebugText.LineHit Line.Hit.ActorLabel)]
          ++ [HostCall.AddOnScreenDebugMessage (DebugText.LedgeHeight self2.LedgeHeightLocation)] }
    else
      let self1 := { Line.self with bDetectLedge := false }
      { self := self1
        calls := calls1 ++ Line.calls
          ++ [HostCall.AddOnScreenDebugMessage (DebugText.LedgeHeight self1.LedgeHeightLocation)] }
  else
    { self := Capsule.self
      calls := calls0 ++ Capsule.calls
        ++ [HostCall.AddOnScreenDebugMessage
              (DebugText.LedgeHeight Capsule.self.LedgeHeightLocation)] }

/-- Member function `AClimbingCharacter::Move(const FInputActionValue& Value)`, with the value
already read as a `FVector2D`. -/
def AClimbingCharacter.Move [NatCast α]
    (self : AClimbingCharacter α) (engine : Engine α) (MovementVector : FVector2D α) :
    Outcome α :=
  match self.Controller with
  | some Controller =>
    -- find out which way is forward
    let Rotation := Controller.ControlRotation
    let YawRotation : FRotator α := FRotator.mk (lit 0) Rotation.Yaw (lit 0)
    -- get forward vector
    let ForwardDirection := engine.RotationMatrixUnitAxis YawRotation EAxis.X
    -- get right vector
    let RightDirection := engine.RotationMatrixUnitAxis YawRotation EAxis.Y
    -- add movement
    { self := self
      calls := [HostCall.AddMovementInput ForwardDirection MovementVector.Y,
                HostCall.AddMovementInput RightDirection MovementVector.X] }
  | none => { self := self, calls := [] }

/-- Member function `AClimbingCharacter::Look(const FInputActionValue& Value)`, with the value
already read as a `FVector2D`. -/
def AClimbingCharacter.Look
    (self : AClimbingCharacter α) (LookAxisVector : FVector2D α) : Outcome α :=
  match self.Controller with
  | some _ =>
    -- add yaw and pitch input to controller
    { self := self
      calls := [HostCall.AddControllerYawInput LookAxisVector.X,
                HostCall.AddControllerPitchInput LookAxisVector.Y] }
  | none => { self := self, calls := [] }

/-- A run of frames: each entry is the engine as it stands at that frame and the
frame's `DeltaSeconds`; `Tick` is the only code that writes the ledge members. -/
def runTicks [Add α] [Mul α] [NatCast α]
    (self : AClimbingCharacter α) (frames : List (Engine α × α)) : AClimbingCharacter α :=
  frames.foldl (fun s frame => (s.Tick frame.1 frame.2).self) self

/-- The trace queries among the engine calls of an outcome. -/
def traceQueries (calls : List (HostCall α)) : List (HostCall α) :=
  calls.filter HostCall.isTraceQuery

/-- The line trace queries among the engine calls. -/
def lineTraceQueries (calls : List (HostCall α)) : List (LineTraceQuery α) :=
  calls.filterMap fun c =>
    match c with
    | .LineTraceSingleByProfile q => some q
    | _ => none

/-! ## A scripted engine

An engine over the integers whose trace services ignore geometry and answer as
scripted, for evaluating the definitions on concrete frames. -/

/-- The hit result a scripted trace writes: the impact point lies at height `z`. -/
def scriptedHit (z : ℤ) : FHitResult ℤ :=
  { ImpactPoint := ⟨40, 0, z⟩
    ImpactNormal := ⟨-1, 0, 0⟩
    ActorLabel := "Wall" }

/-- Unit axes of a yaw-only rotation by a whole number of quarter turns (any
other yaw is treated as no turn). -/
def quarterTurnAxis (R : FRotator ℤ) (Axis : EAxis) : FVector ℤ :=
  let turns := (R.Yaw / 90) % 4
  match Axis with
  | EAxis.X =>
    if turns = 1 then ⟨0, 1, 0⟩ else if turns = 2 then ⟨-1, 0, 0⟩
    else if turns = 3 then ⟨0, -1, 0⟩ else ⟨1, 0, 0⟩
  | EAxis.Y =>
    if turns = 1 then ⟨-1, 0, 0⟩ else if turns = 2 then ⟨0, -1, 0⟩
    else if turns = 3 then ⟨1, 0, 0⟩ else ⟨0, 1, 0⟩
  | EAxis.Z => ⟨0, 0, 1⟩
  | EAxis.None => ⟨0, 0, 0⟩

/-- An engine with the actor at the origin facing +X, the ledge marker at
(40, 0, 90), and trace services that report `capsule` and `line` against the
profile named Ledge, the line trace striking at height `z`. -/
def scriptedEngine (capsule line : Bool) (z : ℤ) : Engine ℤ :=
  { GetActorLocation := ⟨0, 0, 0⟩
    GetActorForwardVector := ⟨1, 0, 0⟩
    LedgeFinderLocation := ⟨40, 0, 90⟩
    CapsuleTraceSingleByProfile := fun q =>
      (capsule && decide (q.ProfileName = LedgeProfile), scriptedHit 50)
    LineTraceSingleByProfile := fun q =>
      (line && decide (q.ProfileName = LedgeProfile), scriptedHit z)
    MakeRotFromX := fun _ => ⟨0, 180, 0⟩
    RotationMatrixUnitAxis := quarterTurnAxis }

/-- A character in mid-game: a ledge was detected at height 120 on an earlier
frame. -/
def hangingCharacter : AClimbingCharacter ℤ :=
  { Controller := some ⟨⟨-15, 0, 0⟩⟩
    bDetectLedge := true
    LedgeHeightLocation := 120
    CheckLedgeImpact := ⟨40, 0, 120⟩ }

/-! ## Unfolding lemmas -/

section Lemmas

theorem TraceForLedge_self [Add α] [Mul α] [NatCast α] (self : AClimbingCharacter α) (engine : Engine α) :
    (self.TraceForLedge engine).self = self := rfl

theorem TraceForLedge_indep [Add α] [Mul α] [NatCast α] (s t : AClimbingCharacter α) (engine : Engine α) :
    (s.TraceForLedge engine).ValidHit = (t.TraceForLedge engine).ValidHit := rfl

theorem VerticalTrace_self [Add α] [NatCast α] (self : AClimbingCharacter α) (engine : Engine α) :
    (self.VerticalTrace engine).self
      = { self with CheckLedgeImpact := (self.VerticalTrace engine).Hit.ImpactPoint } := rfl

theorem VerticalTrace_indep [Add α] [NatCast α] (s t : AClimbingCharacter α) (engine : Engine α) :
    (s.VerticalTrace engine).ValidHit = (t.VerticalTrace engine).ValidHit := rfl

theorem Tick_of_miss [Add α] [Mul α] [NatCast α]
    (self : AClimbingCharacter α) (engine : Engine α) (DeltaSeconds : α)
    (hc : (self.TraceForLedge engine).ValidHit = false) :
    self.Tick engine DeltaSeconds
      = { self := self
          calls := [HostCall.SuperTick DeltaSeconds] ++ (self.TraceForLedge engine).calls
            ++ [HostCall.AddOnScreenDebugMessage
                  (DebugText.LedgeHeight self.LedgeHeightLocation)] } := by
  unfold AClimbingCharacter.Tick
  simp only [hc, TraceForLedge_self]
  rfl

theorem Tick_of_hit_hit [Add α] [Mul α] [NatCast α]
    (self : AClimbingCharacter α) (engine : Engine α) (DeltaSeconds : α)
    (hc : (self.TraceForLedge engine).ValidHit = true)
    (hl : (self.VerticalTrace engine).ValidHit = true) :
    self.Tick engine DeltaSeconds
      = { self :=
            { self with
              CheckLedgeImpact := (self.VerticalTrace engine).Hit.ImpactPoint
              bDetectLedge := true
              LedgeHeightLocation := (self.VerticalTrace engine).Hit.ImpactPoint.Z }
          calls := [HostCall.SuperTick DeltaSeconds] ++ (self.TraceForLedge engine).calls
            ++ [HostCall.AddOnScreenDebugMessage
                  (DebugText.CapsuleHit (self.TraceForLedge engine).Hit.ActorLabel)]
            ++ (self.VerticalTrace engine).calls
            ++ [HostCall.AddOnScreenDebugMessage
                  (DebugText.LineHit (self.VerticalTrace engine).Hit.ActorLabel)]
            ++ [HostCall.AddOnScreenDebugMessage
                  (DebugText.LedgeHeight (self.VerticalTrace engine).Hit.ImpactPoint.Z)] } := by
  unfold AClimbingCharacter.Tick
  simp only [hc, TraceForLedge_self, hl]
  rfl

theorem Tick_of_hit_miss [Add α] [Mul α] [NatCast α]
    (self : AClimbingCharacter α) (engine : Engine α) (DeltaSeconds : α)
    (hc : (self.TraceForLedge engine).ValidHit = true)
    (hl : (self.VerticalTrace engine).ValidHit = false) :
    self.Tick engine DeltaSeconds
      = { self :=
            { self with
              CheckLedgeImpact := (self.VerticalTrace engine).Hit.ImpactPoint
              bDetectLedge := false }
          calls := [HostCall.SuperTick DeltaSeconds] ++ (self.TraceForLedge engine).calls
            ++ [HostCall.AddOnScreenDebugMessage
                  (DebugText.CapsuleHit (self.TraceForLedge engine).Hit.ActorLabel)]
            ++ (self.VerticalTrace engine).calls
            ++ [HostCall.AddOnScreenDebugMessage
                  (DebugText.LedgeHeight self.LedgeHeightLocation)] } := by
  unfold AClimbingCharacter.Tick
  simp only [hc, TraceForLedge_self, hl]
  rfl

theorem runTicks_snoc [Add α] [Mul α] [NatCast α]
    (self : AClimbingCharacter α) (frames : List (Engine α × α)) (frame : Engine α × α) :
    runTicks self (frames ++ [frame])
      = ((runTicks self frames).Tick frame.1 frame.2).self := by
  simp [runTicks, List.foldl_append]

theorem Tick_flag [Add α] [Mul α] [NatCast α]
    (self : AClimbingCharacter α) (engine : Engine α) (DeltaSeconds : α) :
    (self.Tick engine DeltaSeconds).self.bDetectLedge
      = if (self.TraceForLedge engine).ValidHit then (self.VerticalTrace engine).ValidHit
        else self.bDetectLedge := by
  cases hc : (self.TraceForLedge engine).ValidHit
  · rw [Tick_of_miss self engine DeltaSeconds hc]; rfl
  · cases hl : (self.VerticalTrace engine).ValidHit
    · rw [Tick_of_hit_miss self engine DeltaSeconds hc hl]; rfl
    · rw [Tick_of_hit_hit self engine DeltaSeconds hc hl]; rfl

theorem runTicks_flag_iff [Add α] [Mul α] [NatCast α]
    (self : AClimbingCharacter α) (h0 : self.bDetectLedge = false)
    (frames : List (Engine α × α)) :
    (runTicks self frames).bDetectLedge = true ↔
      ∃ pre frame post, frames = pre ++ frame :: post
        ∧ (self.TraceForLedge frame.1).ValidHit = true
        ∧ (self.VerticalTrace frame.1).ValidHit = true
        ∧ ∀ later ∈ post, (self.TraceForLedge later.1).ValidHit = false := by
  induction frames using List.reverseRecOn with
  | nil => simp [runTicks, h0]
  | append_singleton l e ih =>
    rw [runTicks_snoc, Tick_flag,
      TraceForLedge_indep (runTicks self l) self, VerticalTrace_indep (runTicks self l) self]
    cases hc : (self.TraceForLedge e.1).ValidHit
    · simp only [Bool.false_eq_true, if_false]
      rw [ih]
      constructor
      · rintro ⟨pre, f, post, rfl, h1, h2, h3⟩
        refine ⟨pre, f, post ++ [e], by simp, h1, h2, ?_⟩
        intro g hg
        rcases List.mem_append.1 hg with h | h
        · exact h3 g h
        · rw [List.mem_singleton.1 h]; exact hc
      · rintro ⟨pre, f, post, heq, h1, h2, h3⟩
        rcases List.eq_nil_or_concat post with rfl | ⟨post', x, hpost⟩
        · have h := (List.append_inj' heq rfl).2
          rw [List.cons.injEq] at h
          rw [← h.1, hc] at h1
          exact absurd h1 (by decide)
        · rw [List.concat_eq_append] at hpost
          subst hpost
          have heq' : l ++ [e] = (pre ++ f :: post') ++ [x] := by simpa using heq
          have h := (List.append_inj' heq' rfl).1
          refine ⟨pre, f, post', h, h1, h2, ?_⟩
          intro g hg
          exact h3 g (List.mem_append.2 (Or.inl hg))
    · simp only [if_true]
      constructor
      · intro hl
        exact ⟨l, e, [], rfl, hc, hl, by simp⟩
      · rintro ⟨pre, f, post, heq, h1, h2, h3⟩
        rcases List.eq_nil_or_concat post with rfl | ⟨post', x, hpost⟩
        · have h := (List.append_inj' heq rfl).2
          rw [List.cons.injEq] at h
          rw [h.1]; exact h2
        · rw [List.concat_eq_append] at hpost
          subst hpost
          have heq' : l ++ [e] = (pre ++ f :: post') ++ [x] := by simpa using heq
          have h := (List.append_inj' heq' rfl).2
          rw [List.cons.injEq] at h
          have hx := h3 x (List.mem_append.2 (Or.inr (List.mem_singleton.2 rfl)))
          rw [← h.1, hc] at hx
          exact absurd hx (by decide)

end Lemmas

/-! ## The ledge flag and height after one Tick -/

/-- C1 (the code at the failing input): a freshly constructed character detects
a ledge on a first frame where both traces hit; on the next frame the capsule
trace reports no hit, and `bDetectLedge` is still true after that Tick. -/
theorem Tick_capsule_miss_after_detection :
    (runTicks (AClimbingCharacter.construct 0 ⟨0, 0, 0⟩)
        [(scriptedEngine true true 120, 1)]).bDetectLedge = true
    ∧ ((runTicks (AClimbingCharacter.construct 0 ⟨0, 0, 0⟩)
        [(scriptedEngine true true 120, 1)]).TraceForLedge
          (scriptedEngine false false 0)).ValidHit = false
    ∧ (runTicks (AClimbingCharacter.construct 0 ⟨0, 0, 0⟩)
        [(scriptedEngine true true 120, 1), (scriptedEngine false false 0, 1)]).bDetectLedge
          = true := by
  decide

/-- C2: whatever the character state before, when the capsule trace of a Tick
reports a hit and the vertical line trace then reports a hit, `bDetectLedge` is
true afterwards and `LedgeHeightLocation` is the Z coordinate of the impact
point of the hit result that the vertical line trace returned. -/
theorem Tick_both_traces_hit [Add α] [Mul α] [NatCast α]
    (self : AClimbingCharacter α) (engine : Engine α) (DeltaSeconds : α)
    (hc : (self.TraceForLedge engine).ValidHit = true)
    (hl : ((self.TraceForLedge engine).self.VerticalTrace engine).ValidHit = true) :
    (self.Tick engine DeltaSeconds).self.bDetectLedge = true
    ∧ (self.Tick engine DeltaSeconds).self.LedgeHeightLocation
        = ((self.TraceForLedge engine).self.VerticalTrace engine).Hit.ImpactPoint.Z := by
  rw [TraceForLedge_self] at hl ⊢
  rw [Tick_of_hit_hit self engine DeltaSeconds hc hl]
  exact ⟨rfl, rfl⟩

/-- Witness for C2: a freshly constructed character on a frame where both
traces hit and the line trace strikes at height 77. -/
theorem Tick_both_traces_hit_witness :
    ((AClimbingCharacter.construct 0 ⟨0, 0, 0⟩ : AClimbingCharacter ℤ).TraceForLedge
        (scriptedEngine true true 77)).ValidHit = true
    ∧ ((AClimbingCharacter.construct 0 ⟨0, 0, 0⟩ : AClimbingCharacter ℤ).VerticalTrace
        (scriptedEngine true true 77)).ValidHit = true
    ∧ ((AClimbingCharacter.construct 0 ⟨0, 0, 0⟩ : AClimbingCharacter ℤ).Tick
        (scriptedEngine true true 77) 1).self.bDetectLedge = true
    ∧ ((AClimbingCharacter.construct 0 ⟨0, 0, 0⟩ : AClimbingCharacter ℤ).Tick
        (scriptedEngine true true 77) 1).self.LedgeHeightLocation = 77 :=
  ⟨by decide, by decide,
   Tick_both_traces_hit (AClimbingCharacter.construct 0 ⟨0, 0, 0⟩)
     (scriptedEngine true true 77) 1 (by decide) (by decide)⟩

/-- C3: whatever the character state before (a set flag included), when the
capsule trace of a Tick reports a hit and the vertical line trace reports no
hit, `bDetectLedge` is false afterwards. -/
theorem Tick_vertical_miss_clears_flag [Add α] [Mul α] [NatCast α]
    (self : AClimbingCharacter α) (engine : Engine α) (DeltaSeconds : α)
    (hc : (self.TraceForLedge engine).ValidHit = true)
    (hl : ((self.TraceForLedge engine).self.VerticalTrace engine).ValidHit = false) :
    (self.Tick engine DeltaSeconds).self.bDetectLedge = false := by
  rw [TraceForLedge_self] at hl
  rw [Tick_of_hit_miss self engine DeltaSeconds hc hl]

/-- Witness for C3: the flag is set before the Tick, the capsule trace hits, the
line trace misses, and the flag is cleared. -/
theorem Tick_vertical_miss_clears_flag_witness :
    hangingCharacter.bDetectLedge = true
    ∧ (hangingCharacter.TraceForLedge (scriptedEngine true false 0)).ValidHit = true
    ∧ (hangingCharacter.VerticalTrace (scriptedEngine true false 0)).ValidHit = false
    ∧ (hangingCharacter.Tick (scriptedEngine true false 0) 1).self.bDetectLedge = false :=
  ⟨by decide, by decide, by decide,
   Tick_vertical_miss_clears_flag hangingCharacter (scriptedEngine true false 0) 1
     (by decide) (by decide)⟩

/-- C4: on a Tick whose capsule trace reports no hit, the trace queries made are
the capsule query alone, no line trace is issued and `CheckLedgeImpact` keeps its
value; on a Tick whose capsule trace reports a hit, the trace queries made are
the capsule query followed by one line trace, so the line trace is issued
exactly once. -/
theorem Tick_short_circuit [Add α] [Mul α] [NatCast α]
    (self : AClimbingCharacter α) (engine : Engine α) (DeltaSeconds : α) :
    ((self.TraceForLedge engine).ValidHit = false →
        (∃ q, traceQueries (self.Tick engine DeltaSeconds).calls
                = [HostCall.CapsuleTraceSingleByProfile q])
        ∧ lineTraceQueries (self.Tick engine DeltaSeconds).calls = []
        ∧ (self.Tick engine DeltaSeconds).self.CheckLedgeImpact = self.CheckLedgeImpact)
    ∧ ((self.TraceForLedge engine).ValidHit = true →
        (∃ q l, traceQueries (self.Tick engine DeltaSeconds).calls
                = [HostCall.CapsuleTraceSingleByProfile q, HostCall.LineTraceSingleByProfile l])
        ∧ (lineTraceQueries (self.Tick engine DeltaSeconds).calls).length = 1) := by
  constructor
  · intro hc
    rw [Tick_of_miss self engine DeltaSeconds hc]
    exact ⟨⟨_, rfl⟩, rfl, rfl⟩
  · intro hc
    cases hl : (self.VerticalTrace engine).ValidHit
    · rw [Tick_of_hit_miss self engine DeltaSeconds hc hl]
      exact ⟨⟨_, _, rfl⟩, rfl⟩
    · rw [Tick_of_hit_hit self engine DeltaSeconds hc hl]
      exact ⟨⟨_, _, rfl⟩, rfl⟩

/-- Witness for C4: a capsule miss on a frame whose line trace would have hit,
and a capsule hit. -/
theorem Tick_short_circuit_witness :
    (lineTraceQueries (hangingCharacter.Tick (scriptedEngine false true 77) 1).calls = []
      ∧ (hangingCharacter.Tick (scriptedEngine false true 77) 1).self.CheckLedgeImpact
          = ⟨40, 0, 120⟩)
    ∧ (lineTraceQueries (hangingCharacter.Tick (scriptedEngine true true 77) 1).calls).length
        = 1 :=
  ⟨⟨((Tick_short_circuit hangingCharacter (scriptedEngine false true 77) 1).1 (by decide)).2.1,
    ((Tick_short_circuit hangingCharacter (scriptedEngine false true 77) 1).1 (by decide)).2.2⟩,
   ((Tick_short_circuit hangingCharacter (scriptedEngine true true 77) 1).2 (by decide)).2⟩

/-- C5: on a Tick where ledge detection fails (the capsule trace misses, or it
hits and the vertical line trace misses), `LedgeHeightLocation` after the Tick
is its value before the Tick, whatever hit results the traces wrote. -/
theorem Tick_failed_detection_keeps_height [Add α] [Mul α] [NatCast α]
    (self : AClimbingCharacter α) (engine : Engine α) (DeltaSeconds : α)
    (hfail : (self.TraceForLedge engine).ValidHit = false
      ∨ ((self.TraceForLedge engine).ValidHit = true
          ∧ ((self.TraceForLedge engine).self.VerticalTrace engine).ValidHit = false)) :
    (self.Tick engine DeltaSeconds).self.LedgeHeightLocation = self.LedgeHeightLocation := by
  rcases hfail with hc | ⟨hc, hl⟩
  · rw [Tick_of_miss self engine DeltaSeconds hc]
  · rw [TraceForLedge_self] at hl
    rw [Tick_of_hit_miss self engine DeltaSeconds hc hl]

/-- Witness for C5: the capsule hits, the line trace misses with an impact point
at height 5, and the height recorded earlier (120) stays. -/
theorem Tick_failed_detection_keeps_height_witness :
    hangingCharacter.LedgeHeightLocation = 120
    ∧ (hangingCharacter.TraceForLedge (scriptedEngine true false 5)).ValidHit = true
    ∧ (hangingCharacter.VerticalTrace (scriptedEngine true false 5)).ValidHit = false
    ∧ (hangingCharacter.Tick (scriptedEngine true false 5) 1).self.CheckLedgeImpact = ⟨40, 0, 5⟩
    ∧ (hangingCharacter.Tick (scriptedEngine true false 5) 1).self.LedgeHeightLocation = 120 :=
  ⟨by decide, by decide, by decide, by decide,
   Tick_failed_detection_keeps_height hangingCharacter (scriptedEngine true false 5) 1
     (Or.inr ⟨by decide, by decide⟩)⟩

/-! ## Input handlers -/

/-- C6: with no controller attached, Move and Look are no-ops for every 2D input
vector: neither makes any call to the engine (so no movement input and no yaw or
pitch input is requested), both return normally, and the character, its ledge
flag and recorded height included, is unchanged. -/
theorem Move_Look_without_controller [NatCast α]
    (self : AClimbingCharacter α) (engine : Engine α) (Value : FVector2D α)
    (hnull : self.Controller = none) :
    (self.Move engine Value).calls = [] ∧ (self.Move engine Value).self = self
    ∧ (self.Look Value).calls = [] ∧ (self.Look Value).self = self := by
  unfold AClimbingCharacter.Move AClimbingCharacter.Look
  rw [hnull]
  exact ⟨rfl, rfl, rfl, rfl⟩

/-- Witness for C6: a freshly constructed character has no controller. -/
theorem Move_Look_without_controller_witness :
    (AClimbingCharacter.construct 120 ⟨40, 0, 120⟩ : AClimbingCharacter ℤ).Controller = none
    ∧ ((AClimbingCharacter.construct 120 ⟨40, 0, 120⟩).Move
          (scriptedEngine true true 77) ⟨3, 4⟩).calls = []
    ∧ ((AClimbingCharacter.construct 120 ⟨40, 0, 120⟩).Move
          (scriptedEngine true true 77) ⟨3, 4⟩).self = AClimbingCharacter.construct 120 ⟨40, 0, 120⟩
    ∧ ((AClimbingCharacter.construct 120 ⟨40, 0, 120⟩ : AClimbingCharacter ℤ).Look ⟨3, 4⟩).calls
        = []
    ∧ ((AClimbingCharacter.construct 120 ⟨40, 0, 120⟩ : AClimbingCharacter ℤ).Look ⟨3, 4⟩).self
        = AClimbingCharacter.construct 120 ⟨40, 0, 120⟩ :=
  ⟨rfl, Move_Look_without_controller (AClimbingCharacter.construct 120 ⟨40, 0, 120⟩)
    (scriptedEngine true true 77) ⟨3, 4⟩ rfl⟩

/-- C7: with a controller attached whose control rotation has yaw 0, for every
input vector and every controller pitch and roll, Move makes exactly two calls
to the engine: movement input along world-forward (1,0,0) scaled by the input's
Y, then movement input along world-right (0,1,0) scaled by the input's X; the
character, its ledge state included, is unchanged.  World-forward and
world-right are what the engine's rotation matrix gives as the X and Y unit
axes of the zero rotation. -/
theorem Move_yaw_zero [NatCast α]
    (self : AClimbingCharacter α) (engine : Engine α) (Controller : AController α)
    (Pitch Roll : α) (Value : FVector2D α)
    (hctl : self.Controller = some Controller)
    (hrot : Controller.ControlRotation = ⟨Pitch, lit 0, Roll⟩)
    (hfwd : engine.RotationMatrixUnitAxis ⟨lit 0, lit 0, lit 0⟩ EAxis.X = ⟨lit 1, lit 0, lit 0⟩)
    (hright : engine.RotationMatrixUnitAxis ⟨lit 0, lit 0, lit 0⟩ EAxis.Y
                = ⟨lit 0, lit 1, lit 0⟩) :
    (self.Move engine Value).calls
      = [HostCall.AddMovementInput ⟨lit 1, lit 0, lit 0⟩ Value.Y,
         HostCall.AddMovementInput ⟨lit 0, lit 1, lit 0⟩ Value.X]
    ∧ (self.Move engine Value).self = self := by
  unfold AClimbingCharacter.Move
  rw [hctl]
  simp only [hrot, hfwd, hright, and_self]

/-- Witness for C7: the controller looks 15 degrees down with yaw 0, the input
is (3, 4). -/
theorem Move_yaw_zero_witness :
    hangingCharacter.Controller = some ⟨⟨-15, 0, 0⟩⟩
    ∧ (hangingCharacter.Move (scriptedEngine false false 0) ⟨3, 4⟩).calls
        = [HostCall.AddMovementInput ⟨1, 0, 0⟩ 4, HostCall.AddMovementInput ⟨0, 1, 0⟩ 3]
    ∧ (hangingCharacter.Move (scriptedEngine false false 0) ⟨3, 4⟩).self = hangingCharacter :=
  ⟨rfl, Move_yaw_zero hangingCharacter (scriptedEngine false false 0) ⟨⟨-15, 0, 0⟩⟩ (-15) 0
    ⟨3, 4⟩ rfl rfl rfl rfl⟩

/-! ## The two trace queries -/

/-- C8: for every actor location L and forward vector F, TraceForLedge makes a
single call to the engine, a capsule sweep against the profile named "Ledge"
that starts at L + (0,0,50) and ends at L + F*33 + (0,0,50), and it returns the
hit boolean the engine reported for that sweep (scalars need only a
commutative addition).  In exact arithmetic, for an actor at the origin facing
+X the sweep runs from (0,0,50) to (33,0,50). -/
theorem TraceForLedge_query :
    (∀ (α : Type) [AddCommMagma α] [Mul α] [NatCast α]
        (self : AClimbingCharacter α) (engine : Engine α),
        ∃ q, (self.TraceForLedge engine).calls = [HostCall.CapsuleTraceSingleByProfile q]
          ∧ q.ProfileName = "Ledge"
          ∧ q.Start = engine.GetActorLocation + ⟨lit 0, lit 0, lit 50⟩
          ∧ q.End = engine.GetActorLocation + engine.GetActorForwardVector * (lit 33 : α)
                      + ⟨lit 0, lit 0, lit 50⟩
          ∧ (self.TraceForLedge engine).ValidHit = (engine.CapsuleTraceSingleByProfile q).1)
    ∧ (∀ (β : Type) [NonAssocSemiring β] (self : AClimbingCharacter β) (engine : Engine β),
        engine.GetActorLocation = ⟨0, 0, 0⟩ → engine.GetActorForwardVector = ⟨1, 0, 0⟩ →
        ∃ q, (self.TraceForLedge engine).calls = [HostCall.CapsuleTraceSingleByProfile q]
          ∧ q.Start = ⟨0, 0, 50⟩ ∧ q.End = ⟨33, 0, 50⟩) := by
  constructor
  · intro α _ _ _ self engine
    refine ⟨_, rfl, rfl, rfl, ?_, rfl⟩
    show engine.GetActorForwardVector * (lit 33 : α) + engine.GetActorLocation
          + ⟨lit 0, lit 0, lit 50⟩ = _
    have hcomm : ∀ a b : FVector α, a + b = b + a := by
      intro a b
      show FVector.add a b = FVector.add b a
      simp only [FVector.add, add_comm]
    rw [hcomm engine.GetActorLocation]
  · intro β _ self engine hloc hfwd
    refine ⟨_, rfl, ?_, ?_⟩
    · show engine.GetActorLocation + (⟨lit 0, lit 0, lit 50⟩ : FVector β) = _
      rw [hloc]
      show FVector.add _ _ = _
      simp [FVector.add, lit]
    · show engine.GetActorForwardVector * (lit 33 : β) + engine.GetActorLocation
          + (⟨lit 0, lit 0, lit 50⟩ : FVector β) = _
      rw [hloc, hfwd]
      show FVector.add (FVector.add (FVector.scale _ _) _) _ = _
      simp [FVector.add, FVector.scale, lit]

/-- Witness for C8: the scripted engine has the actor at the origin facing +X. -/
theorem TraceForLedge_query_witness :
    ∃ q, (hangingCharacter.TraceForLedge (scriptedEngine true false 0)).calls
          = [HostCall.CapsuleTraceSingleByProfile q]
      ∧ q.Start = ⟨0, 0, 50⟩ ∧ q.End = ⟨33, 0, 50⟩ :=
  TraceForLedge_query.2 ℤ hangingCharacter (scriptedEngine true false 0) rfl rfl

/-- C9: for every anchor position A of the LedgeFinder marker, VerticalTrace
makes a single call to the engine, a line trace against the profile named
"Ledge" (the profile of the capsule sweep) from A + (0,0,80) down to A; it
returns the hit boolean the engine reported, and stores the impact point of
the engine's hit result in `CheckLedgeImpact`. -/
theorem VerticalTrace_query [Add α] [NatCast α]
    (self : AClimbingCharacter α) (engine : Engine α) :
    ∃ q, (self.VerticalTrace engine).calls = [HostCall.LineTraceSingleByProfile q]
      ∧ q.ProfileName = "Ledge"
      ∧ q.Start = engine.LedgeFinderLocation + ⟨lit 0, lit 0, lit 80⟩
      ∧ q.End = engine.LedgeFinderLocation
      ∧ (self.VerticalTrace engine).ValidHit = (engine.LineTraceSingleByProfile q).1
      ∧ (self.VerticalTrace engine).self.CheckLedgeImpact
          = (engine.LineTraceSingleByProfile q).2.ImpactPoint :=
  ⟨_, rfl, rfl, rfl, rfl, rfl, rfl⟩

/-! ## The ledge flag over a run of frames -/

/-- C10: apply any finite run of frames to a freshly constructed character.
`bDetectLedge` is true after the last Tick exactly when the run has a frame
whose capsule trace hit and whose vertical trace hit and no later frame had a
capsule hit (so the most recent capsule hit came with a vertical hit).  What
the two traces report on a frame does not depend on the character's members,
and a Tick whose capsule trace misses leaves the flag as it was. -/
theorem runTicks_ledge_flag [Add α] [Mul α] [NatCast α]
    (LedgeHeightLocation : α) (CheckLedgeImpact : FVector α)
    (frames : List (Engine α × α)) :
    ((runTicks (AClimbingCharacter.construct LedgeHeightLocation CheckLedgeImpact)
          frames).bDetectLedge = true ↔
      ∃ pre frame post, frames = pre ++ frame :: post
        ∧ ((AClimbingCharacter.construct LedgeHeightLocation CheckLedgeImpact).TraceForLedge
              frame.1).ValidHit = true
        ∧ ((AClimbingCharacter.construct LedgeHeightLocation CheckLedgeImpact).VerticalTrace
              frame.1).ValidHit = true
        ∧ ∀ later ∈ post,
            ((AClimbingCharacter.construct LedgeHeightLocation CheckLedgeImpact).TraceForLedge
                later.1).ValidHit = false)
    ∧ (∀ (s t : AClimbingCharacter α) (engine : Engine α),
        (s.TraceForLedge engine).ValidHit = (t.TraceForLedge engine).ValidHit
        ∧ (s.VerticalTrace engine).ValidHit = (t.VerticalTrace engine).ValidHit)
    ∧ (∀ (self : AClimbingCharacter α) (engine : Engine α) (DeltaSeconds : α),
        (self.TraceForLedge engine).ValidHit = false →
        (self.Tick engine DeltaSeconds).self.bDetectLedge = self.bDetectLedge) := by
  refine ⟨runTicks_flag_iff _ rfl frames, fun s t engine => ⟨rfl, rfl⟩, ?_⟩
  intro self engine DeltaSeconds hc
  rw [Tick_of_miss self engine DeltaSeconds hc]

/-- Witness for C10: three frames, of which the second detects a ledge and the
third has a capsule miss; the flag is true at the end. -/
theorem runTicks_ledge_flag_witness :
    (runTicks (AClimbingCharacter.construct 0 ⟨0, 0, 0⟩)
        [(scriptedEngine true false 0, 1), (scriptedEngine true true 120, 1),
         (scriptedEngine false true 90, 1)]).bDetectLedge = true :=
  (runTicks_ledge_flag (0 : ℤ) ⟨0, 0, 0⟩
      [(scriptedEngine true false 0, 1), (scriptedEngine true true 120, 1),
       (scriptedEngine false true 90, 1)]).1.2
    ⟨[(scriptedEngine true false 0, 1)], (scriptedEngine true true 120, 1),
     [(scriptedEngine false true 90, 1)], rfl, by decide, by decide, by decide⟩

end Climbing
